import Mathlib

/-!
Verification of the PyEMMA `Transformer` pipeline stage
(src/pyemma/coordinates/transform/transformer.py) against its
natural-language specification.

The embedding is shallow: Python objects become Lean structures, object
identity (`is`) becomes equality of allocated object ids (`Nat`), mutation
becomes explicit state passing, and a raised exception becomes the `error`
branch of `Except`.  Since Python methods mutate `self` in place even when
they later raise, every method that can raise returns the post-call object
state together with the outcome, as `Transformer × Except PyErr _`.

External collaborators that the source consumes through narrow interfaces
(the `Estimator` base class, `DataInMemory`, the `Iterable` base, the
upstream `DataSourceIterator`) are not under src/; where one of them decides
a claim its behavior is modelled from the spec and the definition says so in
its doc comment.
-/

namespace PyEMMA

/-- A numpy array: its shape plus flat contents.  `ndim` is the rank. -/
structure NDArray where
  shape : List Nat
  data : List Int
  deriving DecidableEq, Repr

def NDArray.ndim (a : NDArray) : Nat := a.shape.length

/-- Python exceptions raised by the code under src/. -/
inductive PyErr where
  | typeError (msg : String)
  | valueError (msg : String)
  | runtimeError (msg : String)
  | attributeError (msg : String)
  deriving DecidableEq, Repr

def isError {α : Type} : Except PyErr α → Bool
  | .error _ => true
  | .ok _ => false

/-- A data-producer object, identified by its Python object id (`is`
comparisons become id comparisons).  It is either another Transformer used
as a pipeline stage, or a `DataInMemory` wrapper. -/
inductive ProducerObj where
  | stage (pid : Nat)
  | inMemory (pid : Nat)
  deriving DecidableEq, Repr

def ProducerObj.pid : ProducerObj → Nat
  | .stage p => p
  | .inMemory p => p

/-- The inputs the public entry points receive.  `stage` and `inMemory` are
instances of the pyemma `Iterable` base class; arrays, lists, tuples and
anything else are not. -/
inductive PyObjIn where
  | stage (pid : Nat)
  | inMemory (pid : Nat)
  | ndarray (a : NDArray)
  | pylist (xs : List NDArray)
  | pytuple (xs : List NDArray)
  | other (tyname : String)
  deriving DecidableEq, Repr

/-- `isinstance(X, Iterable)` for the modelled inputs. -/
def PyObjIn.isIterable : PyObjIn → Bool
  | .stage _ => true
  | .inMemory _ => true
  | _ => false

/-- `str(type(X))`, as interpolated into the error message of `transform`. -/
def PyObjIn.typeName : PyObjIn → String
  | .stage _ => "Transformer"
  | .inMemory _ => "DataInMemory"
  | .ndarray _ => "numpy.ndarray"
  | .pylist _ => "list"
  | .pytuple _ => "tuple"
  | .other ty => ty

/-- The message of the TypeError raised by `transform` for an array whose
rank is not 2 (transformer.py lines 244-246); it names the offending shape. -/
def wrongShapeMsg (a : NDArray) : String :=
  "Input has the wrong shape: " ++ toString a.shape ++ " with " ++
    toString a.ndim ++ " dimensions. Expecting a matrix (2 dimensions)"

/-- The message of the TypeError raised by `transform` for a non-array,
non-list input (transformer.py lines 254-256); it names the offending type. -/
def wrongTypeMsg (ty : String) : String :=
  "Input has the wrong type: " ++ ty ++
    " . Either accepting numpy arrays of dimension 2 or lists of such arrays"

/-- The possible results of `Transformer.transform`: one mapped array or a
Python list of mapped arrays. -/
inductive TransformOut where
  | single (a : NDArray)
  | several (xs : List NDArray)
  deriving DecidableEq, Repr

/-- `Transformer.transform` (transformer.py lines 219-256).  `f` stands for
the abstract method `_transform_array` of the concrete transformer.  A 2-D
array is mapped whole; a list or tuple is mapped element by element into a
list; a non-2-D array raises a TypeError naming the shape; everything else
raises a TypeError naming the type. -/
def Transformer.transform (f : NDArray → NDArray) : PyObjIn → Except PyErr TransformOut
  | .ndarray a =>
      if a.ndim = 2 then .ok (.single (f a))
      else .error (.typeError (wrongShapeMsg a))
  | .pylist xs => .ok (.several (xs.map f))
  | .pytuple xs => .ok (.several (xs.map f))
  | X => .error (.typeError (wrongTypeMsg X.typeName))

/-- The mutable state of a `Transformer` object.  `data_producer` holds the
producer reference (`none` is Python `None`); `_estimated` is the cached
estimation flag; `_chunksize` is the chunksize stored by the `Iterable` base
at construction (`__init__` forwards `chunksize`, default 1000);
`in_memory` and `_mapping_to_mem_active` are the flags consulted at
transformer.py line 197, and `mapped_to_memory` records that
`_map_to_memory` ran; `next_id` is the allocation counter supplying fresh
Python object ids for newly created `DataInMemory` wrappers. -/
structure Transformer where
  data_producer : Option ProducerObj
  _estimated : Bool
  _chunksize : Nat
  in_memory : Bool
  _mapping_to_mem_active : Bool
  mapped_to_memory : Bool
  next_id : Nat
  deriving DecidableEq, Repr

/-- Well-formedness of the allocation model: the held producer id was
allocated before `next_id`, so a freshly allocated id is a different
object. -/
def Transformer.wf (t : Transformer) : Bool :=
  match t.data_producer with
  | none => true
  | some dp => dp.pid < t.next_id

/-- The `data_producer` setter (transformer.py lines 77-83): if `dp` is not
(by identity) the currently stored producer, `_estimated` is reset to
`false`; the reference is stored in either case. -/
def Transformer.set_data_producer (t : Transformer) (dp : Option ProducerObj) :
    Transformer :=
  { (if dp = t.data_producer then t else { t with _estimated := false }) with
    data_producer := dp }

/-- The outcome of the call `super(Transformer, self).estimate(X, **kwargs)`
at transformer.py line 189.  The `Estimator` base class is an external
collaborator, so its behavior is a parameter: it returns a model, raises
the recoverable `NotConvergedWarning`, or raises some other exception. -/
inductive FrameworkOutcome where
  | ok (model : Nat)
  | notConverged (msg : String)
  | raisedErr (e : PyErr)
  deriving DecidableEq, Repr

/-- The tail of `Transformer.estimate` (transformer.py lines 183-202), run
on the object state `t1` left by the input-normalization step: the
framework estimation either raises a genuine exception (which propagates
with the state as it stands) or completes — returning a model, or raising
the caught-and-logged `NotConvergedWarning` which leaves `model = None`.
On completion `_map_to_memory` runs when `in_memory` is set and no mapping
is already active, and `_estimated` is set to `true` last. -/
def Transformer.finish_estimation (t1 : Transformer) (fw : FrameworkOutcome) :
    Transformer × Except PyErr (Option Nat) :=
  match fw with
  | .raisedErr e => (t1, .error e)
  | fw2 =>
      ({ data_producer := t1.data_producer
         _estimated := true
         _chunksize := t1._chunksize
         in_memory := t1.in_memory
         _mapping_to_mem_active := t1._mapping_to_mem_active
         mapped_to_memory :=
           if t1.in_memory && !t1._mapping_to_mem_active then true
           else t1.mapped_to_memory
         next_id := t1.next_id },
       .ok (match fw2 with | .ok m => some m | _ => none))

/-- `Transformer.estimate` (transformer.py lines 175-202).  If `X` is not
an `Iterable`: a bare ndarray is wrapped in a fresh `DataInMemory` (built
with `self.chunksize`) which is assigned through the `data_producer`
setter; anything else raises `ValueError("no array given")` on the spot.
The rest of the method body is `finish_estimation` above.  The base class
defines neither `_param_init` nor `_param_finish`, so the two `hasattr`
guards at lines 185 and 193 are skipped.  The returned pair is the
post-call object state and the outcome (the model, or the propagated
exception). -/
def Transformer.estimate (t : Transformer) (X : PyObjIn) (fw : FrameworkOutcome) :
    Transformer × Except PyErr (Option Nat) :=
  if X.isIterable then Transformer.finish_estimation t fw
  else
    match X with
    | .ndarray _ =>
        Transformer.finish_estimation
          (Transformer.set_data_producer { t with next_id := t.next_id + 1 }
            (some (ProducerObj.inMemory t.next_id)))
          fw
    | _ => (t, .error (.valueError ("no array given")))

/-- The object passed as `self.data_producer` when the source hands the
stored reference to `estimate` (lines 206 and 216).  Python `None` is not an
`Iterable` and not an ndarray, so it goes down the `ValueError` branch. -/
def prodInput : Option ProducerObj → PyObjIn
  | some (.stage p) => .stage p
  | some (.inMemory p) => .inMemory p
  | none => .other ("NoneType")

/-- `Transformer.parametrize` (transformer.py lines 212-216): raises
`RuntimeError` when no data producer is configured, otherwise delegates to
`estimate` on the stored data producer. -/
def Transformer.parametrize (t : Transformer) (fw : FrameworkOutcome) :
    Transformer × Except PyErr (Option Nat) :=
  match t.data_producer with
  | none =>
      (t, .error (.runtimeError ("This estimator has no data source given, giving up.")))
  | some _ => Transformer.estimate t (prodInput t.data_producer) fw

/-- Modelled from the spec: `DataSource.get_output`
(pyemma/coordinates/data/datasource.py is not under src/) streams the mapped
data by creating an iterator over this transformer; `TransformerIterator`
construction dereferences `self.data_producer` (transformer.py line 291), so
the streaming phase fails on a missing producer and otherwise succeeds. -/
def Transformer.super_get_output (t : Transformer) : Except PyErr Unit :=
  match t.data_producer with
  | none => .error (.attributeError ("NoneType object has no attribute _create_iterator"))
  | some _ => .ok ()

/-- `Transformer.get_output` (transformer.py lines 204-208): when
`_estimated` is not set, first runs `estimate` on the stored data producer,
then delegates the streaming to the base class.  The final `Nat` counts how
many times this call invoked `estimate` (the instrumentation claims C5 and
C6 are about). -/
def Transformer.get_output (t : Transformer) (fw : FrameworkOutcome) :
    Transformer × Except PyErr Unit × Nat :=
  if !t._estimated then
    match Transformer.estimate t (prodInput t.data_producer) fw with
    | (t1, .error e) => (t1, .error e, 1)
    | (t1, .ok _) => (t1, Transformer.super_get_output t1, 1)
  else
    (t, Transformer.super_get_output t, 0)

/-- `_to_data_producer` (transformer.py lines 41-50): a Transformer pipeline
stage is used directly; otherwise the source calls `ensure_traj_list(X)` and
wraps the result in a fresh `DataInMemory`.  `ensure_traj_list`
(pyemma/util/types.py) is not under src/; its acceptance is modelled from
the spec: a single array or a list/tuple of arrays is accepted, anything
else raises a type error. -/
def _to_data_producer (t : Transformer) (X : PyObjIn) :
    Transformer × Except PyErr ProducerObj :=
  match X with
  | .stage p => (t, .ok (.stage p))
  | .ndarray _ => ({ t with next_id := t.next_id + 1 }, .ok (.inMemory t.next_id))
  | .pylist _ => ({ t with next_id := t.next_id + 1 }, .ok (.inMemory t.next_id))
  | .pytuple _ => ({ t with next_id := t.next_id + 1 }, .ok (.inMemory t.next_id))
  | X2 => (t, .error (.typeError (X2.typeName)))

/-- `Transformer.fit` (transformer.py lines 164-168): coerces `X` through
`_to_data_producer`, assigns the result through the `data_producer` setter,
then calls `estimate` — on the ORIGINAL `X`, not on the coerced producer.
`.ok ()` models the `return self`. -/
def Transformer.fit (t : Transformer) (X : PyObjIn) (fw : FrameworkOutcome) :
    Transformer × Except PyErr Unit :=
  match _to_data_producer t X with
  | (t1, .error e) => (t1, .error e)
  | (t1, .ok dp) =>
      let t2 := Transformer.set_data_producer t1 (some dp)
      match Transformer.estimate t2 X fw with
      | (t3, .error e) => (t3, .error e)
      | (t3, .ok _) => (t3, .ok ())

/-- The delegating chunksize getter written at transformer.py lines 86-88
(`return self.data_producer.chunksize`).  In the Python class body this
binding of the name `chunksize` is immediately replaced by the property
built at line 90, so this method is dead code: reading `t.chunksize` never
runs it.  `heap` maps a producer object id to that producer's own stored
chunksize. -/
def Transformer.chunksize_method (t : Transformer) (heap : Nat → Nat) :
    Except PyErr Nat :=
  match t.data_producer with
  | none => .error (.attributeError ("NoneType object has no attribute chunksize"))
  | some dp => .ok (heap dp.pid)

/-- Modelled from the spec: the `Iterable.chunksize` property getter
(pyemma/coordinates/data/iterable.py is not under src/).  The `Iterable`
base stores the chunksize passed at construction and its getter returns
that stored value.  Line 90 of transformer.py builds the effective
`chunksize` property as `Iterable.chunksize.setter(...)`, which keeps this
getter, so this — not the dead method above — is what reading `t.chunksize`
actually runs. -/
def Transformer.chunksize_get (t : Transformer) : Nat := t._chunksize

/-- The chunksize setter (transformer.py lines 90-95): a negative size
raises `ValueError` and changes nothing; otherwise the DATA PRODUCER object
has its chunksize set to `int(size)`.  Returns the updated heap of producer
chunksizes. -/
def Transformer.chunksize_set (t : Transformer) (heap : Nat → Nat) (size : Int) :
    Except PyErr (Nat → Nat) :=
  if ¬ size ≥ 0 then .error (.valueError ("chunksize has to be positive"))
  else
    match t.data_producer with
    | none => .error (.attributeError ("NoneType object has no attribute chunksize"))
    | some dp => .ok (fun p => if p = dp.pid then size.toNat else heap p)

/-- Modelled from the spec: the upstream chunk iterator
(`DataSourceIterator`, pyemma/coordinates/data/datasource.py is not under
src/).  It holds the remaining (trajectory index, chunk) pairs in delivery
order together with the cursor trajectory; `next_chunk` delivers the head
and advances the cursor. -/
structure DSIter where
  pending : List (Nat × NDArray)
  cur_traj : Nat
  deriving DecidableEq, Repr

def DSIter.next_chunk : DSIter → Option (NDArray × DSIter)
  | ⟨[], _⟩ => none
  | ⟨(ti, c) :: rest, _⟩ => some (c, ⟨rest, ti⟩)

def DSIter.current_trajindex (it : DSIter) : Nat := it.cur_traj

def DSIter._n_chunks (it : DSIter) : Nat := it.pending.length

/-- `TransformerIterator` (transformer.py lines 287-309): holds the upstream
iterator `_it` created from `data_producer._create_iterator` and the owning
transformer's `_transform_array` capability `f`. -/
structure TransformerIterator where
  f : NDArray → NDArray
  it : DSIter

/-- `current_trajindex` (lines 303-305): pure delegation to `self._it`. -/
def TransformerIterator.current_trajindex (ti : TransformerIterator) : Nat :=
  ti.it.current_trajindex

/-- `_n_chunks` (lines 296-298): pure delegation to `self._it`. -/
def TransformerIterator._n_chunks (ti : TransformerIterator) : Nat :=
  ti.it._n_chunks

/-- `next_chunk` (lines 307-309): pulls the next raw chunk from `self._it`
and returns `self._data_source._transform_array` of it.  Upstream
exhaustion propagates unchanged. -/
def TransformerIterator.next_chunk (ti : TransformerIterator) :
    Option (NDArray × TransformerIterator) :=
  match ti.it.next_chunk with
  | none => none
  | some (X, it2) => some (ti.f X, { ti with it := it2 })

/-- A sample 2 × 3 array used by the concrete-input witnesses. -/
def arr23 : NDArray := ⟨[2, 3], [0, 1, 2, 3, 4, 5]⟩

/-- A sample transformer holding producer id 0, already estimated, used by
the concrete-input witnesses. -/
def sampleT : Transformer :=
  { data_producer := some (.inMemory 0), _estimated := true, _chunksize := 1000,
    in_memory := false, _mapping_to_mem_active := false, mapped_to_memory := false,
    next_id := 1 }

/-- A sample transformer with no producer configured and nothing estimated,
as after `__init__`. -/
def freshT : Transformer :=
  { data_producer := none, _estimated := false, _chunksize := 1000,
    in_memory := false, _mapping_to_mem_active := false, mapped_to_memory := false,
    next_id := 0 }

/-- The sample transformer with a producer configured but not yet
estimated. -/
def unestT : Transformer := { sampleT with _estimated := false }

/-- A sample heap of producer chunksizes: every producer object currently
has chunksize 500. -/
def heap500 : Nat → Nat := fun _ => 500

end PyEMMA

namespace PyEMMA

/-- Helper: field-by-field description of `finish_estimation`. -/
theorem finish_estimation_spec (t1 : Transformer) (fw : FrameworkOutcome) :
    ((Transformer.finish_estimation t1 fw).1).data_producer = t1.data_producer
  ∧ ((Transformer.finish_estimation t1 fw).1).next_id = t1.next_id
  ∧ ((Transformer.finish_estimation t1 fw).1)._estimated
      = (match fw with | .raisedErr _ => t1._estimated | _ => true)
  ∧ (Transformer.finish_estimation t1 fw).2
      = (match fw with
         | .ok m => .ok (some m)
         | .notConverged _ => .ok none
         | .raisedErr e => .error e)
  ∧ (t1.in_memory = true → t1._mapping_to_mem_active = false →
      (∀ e : PyErr, fw ≠ .raisedErr e) →
      ((Transformer.finish_estimation t1 fw).1).mapped_to_memory = true) := by
  unfold Transformer.finish_estimation
  cases fw with
  | ok m =>
      exact ⟨rfl, rfl, rfl, rfl, fun hm ha _ => by simp [hm, ha]⟩
  | notConverged msg =>
      exact ⟨rfl, rfl, rfl, rfl, fun hm ha _ => by simp [hm, ha]⟩
  | raisedErr e =>
      exact ⟨rfl, rfl, rfl, rfl, fun _ _ hf => absurd rfl (hf e)⟩

/-- Helper: the `data_producer` setter touches only `data_producer` and
`_estimated`. -/
theorem set_data_producer_fields (t : Transformer) (dp : Option ProducerObj) :
    (Transformer.set_data_producer t dp).in_memory = t.in_memory
  ∧ (Transformer.set_data_producer t dp)._mapping_to_mem_active
      = t._mapping_to_mem_active
  ∧ (Transformer.set_data_producer t dp).next_id = t.next_id
  ∧ (Transformer.set_data_producer t dp)._estimated
      = (if dp = t.data_producer then t._estimated else false) := by
  unfold Transformer.set_data_producer
  refine ⟨?_, ?_, ?_, ?_⟩ <;> split <;> rfl

/-- Claim C1: `transform` on a 2-D array returns `_transform_array` of the
whole array; on a list or tuple it returns a list of the same length whose
i-th element is `_transform_array` of the i-th input element, order
preserved; an array of any other rank raises a TypeError naming the shape,
and a non-array, non-list/tuple input raises a TypeError naming the type. -/
theorem C1_transform_contract (f : NDArray → NDArray) :
    (∀ a : NDArray, a.ndim = 2 →
        Transformer.transform f (.ndarray a) = .ok (.single (f a)))
  ∧ (∀ xs : List NDArray,
        Transformer.transform f (.pylist xs) = .ok (.several (xs.map f))
      ∧ (xs.map f).length = xs.length
      ∧ ∀ i : Nat, ∀ h : i < xs.length,
          (xs.map f).get ⟨i, by simpa using h⟩ = f (xs.get ⟨i, h⟩))
  ∧ (∀ xs : List NDArray,
        Transformer.transform f (.pytuple xs) = .ok (.several (xs.map f)))
  ∧ (∀ a : NDArray, a.ndim ≠ 2 →
        Transformer.transform f (.ndarray a) = .error (.typeError (wrongShapeMsg a)))
  ∧ (∀ ty : String,
        Transformer.transform f (.other ty) = .error (.typeError (wrongTypeMsg ty))) := by
  refine ⟨fun a h => ?_, fun xs => ⟨rfl, by simp, fun i h => by simp⟩, fun xs => rfl,
    fun a h => ?_, fun ty => rfl⟩
  · simp [Transformer.transform, h]
  · simp [Transformer.transform, h]

/-- Witness for C1 at concrete inputs: the identity mapping on a 2 × 3
array, and a rank-1 array of six entries. -/
theorem C1_transform_contract_wit :
    Transformer.transform (fun a => a) (.ndarray ⟨[2, 3], [0, 1, 2, 3, 4, 5]⟩)
      = .ok (.single ⟨[2, 3], [0, 1, 2, 3, 4, 5]⟩)
  ∧ Transformer.transform (fun a => a) (.ndarray ⟨[6], [0, 1, 2, 3, 4, 5]⟩)
      = .error (.typeError (wrongShapeMsg ⟨[6], [0, 1, 2, 3, 4, 5]⟩)) :=
  ⟨(C1_transform_contract (fun a => a)).1 ⟨[2, 3], [0, 1, 2, 3, 4, 5]⟩ rfl,
   (C1_transform_contract (fun a => a)).2.2.2.1 ⟨[6], [0, 1, 2, 3, 4, 5]⟩ (by decide)⟩

/-- Claim C2: assigning `t.data_producer = dp` stores `dp`; when `dp` is
not identical (object identity) to the previous producer the cached
`_estimated` flag is reset to `false`, and when it is identical the flag is
left unchanged. -/
theorem C2_data_producer_setter (t : Transformer) (dp : Option ProducerObj) :
    (Transformer.set_data_producer t dp).data_producer = dp
  ∧ (dp ≠ t.data_producer → (Transformer.set_data_producer t dp)._estimated = false)
  ∧ (dp = t.data_producer → (Transformer.set_data_producer t dp)._estimated = t._estimated) := by
  unfold Transformer.set_data_producer
  refine ⟨rfl, fun hne => ?_, fun heq => ?_⟩
  · simp [hne]
  · simp [heq]

/-- Witness for C2 at concrete inputs: storing a different producer resets
the flag of an estimated transformer, and re-storing the identical producer
preserves it. -/
theorem C2_data_producer_setter_wit :
    (Transformer.set_data_producer sampleT (some (.inMemory 7)))._estimated = false
  ∧ (Transformer.set_data_producer sampleT (some (.inMemory 0)))._estimated
      = sampleT._estimated :=
  ⟨(C2_data_producer_setter sampleT (some (.inMemory 7))).2.1 (by decide),
   (C2_data_producer_setter sampleT (some (.inMemory 0))).2.2 rfl⟩

/-- Claim C3: `TransformerIterator.next_chunk` returns exactly
`_transform_array` applied to the chunk delivered by the upstream iterator
(exhaustion propagating unchanged), and `current_trajindex` and `_n_chunks`
are pure delegations to the upstream iterator, before and after every
step. -/
theorem C3_iterator_delegation (ti : TransformerIterator) :
    ti.current_trajindex = ti.it.current_trajindex
  ∧ ti._n_chunks = ti.it._n_chunks
  ∧ TransformerIterator.next_chunk ti
      = Option.map (fun p => (ti.f p.1, ⟨ti.f, p.2⟩)) ti.it.next_chunk
  ∧ ∀ Y : NDArray, ∀ ti2 : TransformerIterator,
      TransformerIterator.next_chunk ti = some (Y, ti2) →
        ti2.f = ti.f
      ∧ ti2.current_trajindex = ti2.it.current_trajindex
      ∧ ti2._n_chunks = ti2.it._n_chunks := by
  obtain ⟨f, pending, cur⟩ := ti
  refine ⟨rfl, rfl, ?_, ?_⟩
  · cases pending with
    | nil => rfl
    | cons hd tl => rfl
  · intro Y ti2 h
    cases pending with
    | nil => exact absurd h (by simp [TransformerIterator.next_chunk, DSIter.next_chunk])
    | cons hd tl =>
        obtain ⟨ti0, c0⟩ := hd
        have h2 : (f c0, TransformerIterator.mk f ⟨tl, ti0⟩) = (Y, ti2) :=
          Option.some.inj h
        have hti : TransformerIterator.mk f ⟨tl, ti0⟩ = ti2 := congrArg Prod.snd h2
        exact hti ▸ ⟨rfl, rfl, rfl⟩

/-- Witness for C3 at a concrete iterator: a two-chunk upstream stream and
the mapping that doubles every entry. -/
theorem C3_iterator_delegation_wit :
    (TransformerIterator.mk (fun a => ⟨a.shape, a.data.map (2 * ·)⟩)
        ⟨[(1, arr23)], 0⟩).f
      = (fun a => ⟨a.shape, a.data.map (2 * ·)⟩)
  ∧ (TransformerIterator.mk (fun a => ⟨a.shape, a.data.map (2 * ·)⟩)
        ⟨[(1, arr23)], 0⟩).current_trajindex
      = (TransformerIterator.mk (fun a => ⟨a.shape, a.data.map (2 * ·)⟩)
        ⟨[(1, arr23)], 0⟩).it.current_trajindex
  ∧ (TransformerIterator.mk (fun a => ⟨a.shape, a.data.map (2 * ·)⟩)
        ⟨[(1, arr23)], 0⟩)._n_chunks
      = (TransformerIterator.mk (fun a => ⟨a.shape, a.data.map (2 * ·)⟩)
        ⟨[(1, arr23)], 0⟩).it._n_chunks :=
  (C3_iterator_delegation
      (TransformerIterator.mk (fun a => ⟨a.shape, a.data.map (2 * ·)⟩)
        ⟨[(0, arr23), (1, arr23)], 0⟩)).2.2.2
    ⟨arr23.shape, arr23.data.map (2 * ·)⟩
    (TransformerIterator.mk (fun a => ⟨a.shape, a.data.map (2 * ·)⟩)
      ⟨[(1, arr23)], 0⟩) rfl

/-- Claim C4: when the estimation framework raises the recoverable
non-convergence signal during `estimate`, the signal is caught rather than
propagated (the call returns without error, with `model = None`), the
remaining steps still run (`_map_to_memory` when in-memory mode is active),
and `_estimated` is `true` afterwards. -/
theorem C4_not_converged_recoverable (t : Transformer) (X : PyObjIn) (msg : String)
    (h : X.isIterable = true ∨ ∃ a : NDArray, X = .ndarray a) :
    (Transformer.estimate t X (.notConverged msg)).2 = .ok none
  ∧ ((Transformer.estimate t X (.notConverged msg)).1)._estimated = true
  ∧ (t.in_memory = true → t._mapping_to_mem_active = false →
      ((Transformer.estimate t X (.notConverged msg)).1).mapped_to_memory = true) := by
  have hnc : ∀ e : PyErr, (FrameworkOutcome.notConverged msg) ≠ .raisedErr e :=
    fun e hf => by cases hf
  rcases h with hit | ⟨a, rfl⟩
  · have e1 : Transformer.estimate t X (.notConverged msg)
        = Transformer.finish_estimation t (.notConverged msg) := by
      unfold Transformer.estimate
      rw [if_pos hit]
    have h2 := finish_estimation_spec t (.notConverged msg)
    rw [e1]
    exact ⟨h2.2.2.2.1, h2.2.2.1, fun hm ha => h2.2.2.2.2 hm ha hnc⟩
  · have e1 : Transformer.estimate t (.ndarray a) (.notConverged msg)
        = Transformer.finish_estimation
            (Transformer.set_data_producer { t with next_id := t.next_id + 1 }
              (some (ProducerObj.inMemory t.next_id)))
            (.notConverged msg) := rfl
    have h2 := finish_estimation_spec
        (Transformer.set_data_producer { t with next_id := t.next_id + 1 }
          (some (ProducerObj.inMemory t.next_id)))
        (.notConverged msg)
    have h3 := set_data_producer_fields { t with next_id := t.next_id + 1 }
        (some (ProducerObj.inMemory t.next_id))
    rw [e1]
    refine ⟨h2.2.2.2.1, h2.2.2.1, fun hm ha => ?_⟩
    exact h2.2.2.2.2 (by rw [h3.1]; exact hm) (by rw [h3.2.1]; exact ha) hnc

/-- Witness for C4 at a concrete input: the sample transformer estimated on
its own in-memory producer under a non-convergence signal. -/
theorem C4_not_converged_recoverable_wit :
    (Transformer.estimate sampleT (.inMemory 0) (.notConverged "max iter")).2 = .ok none
  ∧ ((Transformer.estimate sampleT (.inMemory 0) (.notConverged "max iter")).1)._estimated
      = true :=
  ⟨(C4_not_converged_recoverable sampleT (.inMemory 0) "max iter" (Or.inl rfl)).1,
   (C4_not_converged_recoverable sampleT (.inMemory 0) "max iter" (Or.inl rfl)).2.1⟩

/-- Helper: on an `Iterable` input, `estimate` does not touch the stored
producer reference, marks `_estimated` exactly when the framework does not
raise a genuine exception, and relays the framework outcome. -/
theorem estimate_iterable_spec (t : Transformer) (X : PyObjIn) (fw : FrameworkOutcome)
    (hX : X.isIterable = true) :
    ((Transformer.estimate t X fw).1).data_producer = t.data_producer
  ∧ ((Transformer.estimate t X fw).1)._estimated
      = (match fw with | .raisedErr _ => t._estimated | _ => true)
  ∧ (Transformer.estimate t X fw).2
      = (match fw with
         | .ok m => .ok (some m)
         | .notConverged _ => .ok none
         | .raisedErr e => .error e) := by
  have e1 : Transformer.estimate t X fw = Transformer.finish_estimation t fw := by
    unfold Transformer.estimate
    rw [if_pos hX]
  have h2 := finish_estimation_spec t fw
  rw [e1]
  exact ⟨h2.1, h2.2.2.1, h2.2.2.2.1⟩

/-- Helper: `estimate` rejects any input that is neither an `Iterable` nor a
bare ndarray with `ValueError("no array given")`, leaving the object state
untouched and never reaching the estimation framework. -/
theorem estimate_rejects (t : Transformer) (X : PyObjIn) (fw : FrameworkOutcome)
    (hX : X.isIterable = false) (hA : ∀ a : NDArray, X ≠ .ndarray a) :
    Transformer.estimate t X fw = (t, .error (.valueError ("no array given"))) := by
  cases X with
  | stage p => exact absurd hX (by simp [PyObjIn.isIterable])
  | inMemory p => exact absurd hX (by simp [PyObjIn.isIterable])
  | ndarray a => exact absurd rfl (hA a)
  | pylist xs => rfl
  | pytuple xs => rfl
  | other ty => rfl

/-- Helper: on a bare ndarray, `estimate` allocates a fresh in-memory
wrapper, stores it through the `data_producer` setter before the framework
runs, and relays the framework outcome. -/
theorem estimate_ndarray_spec (t : Transformer) (a : NDArray) (fw : FrameworkOutcome) :
    ((Transformer.estimate t (.ndarray a) fw).1).data_producer
      = some (.inMemory t.next_id)
  ∧ ((Transformer.estimate t (.ndarray a) fw).1)._estimated
      = (match fw with
         | .raisedErr _ =>
             if (some (ProducerObj.inMemory t.next_id) : Option ProducerObj)
                 = t.data_producer
             then t._estimated else false
         | _ => true)
  ∧ (Transformer.estimate t (.ndarray a) fw).2
      = (match fw with
         | .ok m => .ok (some m)
         | .notConverged _ => .ok none
         | .raisedErr e => .error e) := by
  have e1 : Transformer.estimate t (.ndarray a) fw
      = Transformer.finish_estimation
          (Transformer.set_data_producer { t with next_id := t.next_id + 1 }
            (some (ProducerObj.inMemory t.next_id)))
          fw := rfl
  have h2 := finish_estimation_spec
      (Transformer.set_data_producer { t with next_id := t.next_id + 1 }
        (some (ProducerObj.inMemory t.next_id)))
      fw
  have h3 := set_data_producer_fields { t with next_id := t.next_id + 1 }
      (some (ProducerObj.inMemory t.next_id))
  rw [e1]
  refine ⟨h2.1, ?_, h2.2.2.2.1⟩
  rw [h2.2.2.1]
  cases fw with
  | ok m => rfl
  | notConverged m2 => rfl
  | raisedErr e => simpa using h3.2.2.2

/-- Helper: the `data_producer` setter can only leave `_estimated` set when
it already was set. -/
theorem set_data_producer_estimated_mono (t : Transformer) (dp : Option ProducerObj) :
    (Transformer.set_data_producer t dp)._estimated = true → t._estimated = true := by
  unfold Transformer.set_data_producer
  split <;> simp_all

/-- Claim C5: when `_estimated` is unset, `get_output` first runs exactly
one `estimate` pass over the stored data producer (and on framework success
with a configured producer, `_estimated` is `true` afterwards and streaming
succeeds); when `_estimated` is already set, `get_output` runs no
estimation and leaves the state untouched. -/
theorem C5_get_output_estimates_on_demand (t : Transformer) (fw : FrameworkOutcome) :
    (t._estimated = false →
        (Transformer.get_output t fw).2.2 = 1
      ∧ (Transformer.get_output t fw).1
          = (Transformer.estimate t (prodInput t.data_producer) fw).1
      ∧ (∀ dp : ProducerObj, t.data_producer = some dp →
          (∀ e : PyErr, fw ≠ .raisedErr e) →
            ((Transformer.get_output t fw).1)._estimated = true
          ∧ (Transformer.get_output t fw).2.1 = .ok ()))
  ∧ (t._estimated = true →
        (Transformer.get_output t fw).2.2 = 0
      ∧ (Transformer.get_output t fw).1 = t) := by
  constructor
  · intro h
    have hg : Transformer.get_output t fw
        = (match Transformer.estimate t (prodInput t.data_producer) fw with
           | (t1, .error e) => (t1, .error e, 1)
           | (t1, .ok _) => (t1, Transformer.super_get_output t1, 1)) := by
      unfold Transformer.get_output
      rw [h]
      rfl
    rcases he : Transformer.estimate t (prodInput t.data_producer) fw with ⟨t1, r⟩
    have hIt : (prodInput t.data_producer).isIterable = true ∨ t.data_producer = none := by
      rcases hdp : t.data_producer with _ | dp
      · exact Or.inr rfl
      · cases dp <;> exact Or.inl rfl
    refine ⟨?_, ?_, ?_⟩
    · rw [hg, he]; cases r <;> rfl
    · rw [hg, he]; cases r <;> rfl
    · intro dp hdp hfw
      have hit2 : (prodInput t.data_producer).isIterable = true := by
        rcases hIt with hi | hn
        · exact hi
        · rw [hdp] at hn; exact absurd hn (by simp)
      obtain ⟨hprod, hest, hout⟩ :=
        estimate_iterable_spec t (prodInput t.data_producer) fw hit2
      rw [he] at hprod hest hout
      have hrok : ∃ m : Option Nat, r = .ok m := by
        cases fw with
        | ok m => exact ⟨some m, by simpa using hout⟩
        | notConverged m => exact ⟨none, by simpa using hout⟩
        | raisedErr e => exact absurd rfl (hfw e)
      obtain ⟨m, rfl⟩ := hrok
      have hest2 : t1._estimated = true := by
        cases fw with
        | ok m2 => simpa using hest
        | notConverged m2 => simpa using hest
        | raisedErr e => exact absurd rfl (hfw e)
      constructor
      · rw [hg, he]
        exact hest2
      · rw [hg, he]
        have hp2 : t1.data_producer = some dp := by
          rw [← hdp]
          exact hprod
        show Transformer.super_get_output t1 = .ok ()
        unfold Transformer.super_get_output
        rw [hp2]
  · intro h
    have hg2 : Transformer.get_output t fw = (t, Transformer.super_get_output t, 0) := by
      unfold Transformer.get_output
      rw [h]
      rfl
    rw [hg2]
    exact ⟨rfl, rfl⟩

/-- Witness for C5 at concrete inputs: an unestimated sample transformer
runs one pass and an estimated one runs none. -/
theorem C5_get_output_estimates_on_demand_wit :
    (Transformer.get_output unestT (.ok 3)).2.2 = 1
  ∧ (Transformer.get_output sampleT (.ok 3)).2.2 = 0 :=
  ⟨((C5_get_output_estimates_on_demand unestT (.ok 3)).1 rfl).1,
   ((C5_get_output_estimates_on_demand sampleT (.ok 3)).2 rfl).1⟩

/-- Claim C6: with no data producer configured, `parametrize` raises the
usage `RuntimeError` immediately and `get_output` fails with an error as
well, neither completing an estimation nor changing the state; with a
producer configured, `parametrize` is exactly `estimate` on the stored
producer. -/
theorem C6_missing_producer (t : Transformer) (fw : FrameworkOutcome) :
    (t.data_producer = none →
        Transformer.parametrize t fw
          = (t, .error (.runtimeError ("This estimator has no data source given, giving up.")))
      ∧ isError (Transformer.get_output t fw).2.1 = true
      ∧ (Transformer.get_output t fw).1 = t)
  ∧ (t.data_producer ≠ none →
        Transformer.parametrize t fw
          = Transformer.estimate t (prodInput t.data_producer) fw) := by
  constructor
  · intro hdp
    have hp : Transformer.parametrize t fw
        = (t, .error (.runtimeError ("This estimator has no data source given, giving up."))) := by
      unfold Transformer.parametrize
      rw [hdp]
    have hrej : Transformer.estimate t (prodInput t.data_producer) fw
        = (t, .error (.valueError ("no array given"))) := by
      rw [hdp]
      exact estimate_rejects t (.other ("NoneType")) fw rfl (fun a h => by cases h)
    cases ht : t._estimated with
    | false =>
        have hgo : Transformer.get_output t fw
            = (t, .error (.valueError ("no array given")), 1) := by
          unfold Transformer.get_output
          rw [ht, hrej]
          rfl
        exact ⟨hp, by rw [hgo]; rfl, by rw [hgo]⟩
    | true =>
        have hgo : Transformer.get_output t fw
            = (t, .error (.attributeError ("NoneType object has no attribute _create_iterator")), 0) := by
          unfold Transformer.get_output
          rw [ht]
          unfold Transformer.super_get_output
          rw [hdp]
          rfl
        exact ⟨hp, by rw [hgo]; rfl, by rw [hgo]⟩
  · intro hdp
    unfold Transformer.parametrize
    rcases hd : t.data_producer with _ | dp
    · exact absurd hd hdp
    · rfl

/-- Witness for C6 at concrete inputs: a freshly constructed transformer
has no producer, the sample transformer has one. -/
theorem C6_missing_producer_wit :
    Transformer.parametrize freshT (.ok 0)
      = (freshT, .error (.runtimeError ("This estimator has no data source given, giving up.")))
  ∧ Transformer.parametrize sampleT (.ok 0)
      = Transformer.estimate sampleT (prodInput sampleT.data_producer) (.ok 0) :=
  ⟨((C6_missing_producer freshT (.ok 0)).1 rfl).1,
   (C6_missing_producer sampleT (.ok 0)).2 (by simp [sampleT])⟩

/-- Claim C7 (code bug in the source): reading `t.chunksize` does NOT
return the data producer chunksize.  The delegating getter written at
transformer.py lines 86-88 is dead code — the class body immediately
rebinds `chunksize` to `Iterable.chunksize.setter(...)` (line 90), whose
getter is the `Iterable` one returning the transformer's own stored value.
At the failing state (own stored chunksize 1000, producer chunksize 500)
the effective read returns 1000 while the claim requires 500; after a
successful `t.chunksize = 700` (which does update the producer) a read
still returns 1000.  The setter half of the claim does hold: a negative
size raises `ValueError` and a non-negative one updates the producer. -/
theorem C7_chunksize_getter_divergence :
    Transformer.chunksize_get sampleT = 1000
  ∧ Transformer.chunksize_method sampleT heap500 = .ok 500
  ∧ Transformer.chunksize_get sampleT ≠ 500
  ∧ Transformer.chunksize_set sampleT heap500 (-1)
      = .error (.valueError ("chunksize has to be positive"))
  ∧ (Transformer.chunksize_set sampleT heap500 700).map (fun hp => hp 0) = .ok 700
  ∧ Transformer.chunksize_get sampleT ≠ 700 := by
  refine ⟨rfl, rfl, by decide, rfl, rfl, by decide⟩

/-- Helper: under the allocation invariant, a freshly allocated in-memory
wrapper is a different object from the stored producer. -/
theorem wf_fresh_ne (t : Transformer) (hwf : t.wf = true) :
    (some (ProducerObj.inMemory t.next_id) : Option ProducerObj) ≠ t.data_producer := by
  intro hc
  unfold Transformer.wf at hwf
  rw [← hc] at hwf
  simp [ProducerObj.pid] at hwf

/-- Helper: a failing `estimate` call never turns `_estimated` on: if the
flag is set after the failure, it was set before the call. -/
theorem estimate_error_estimated (t : Transformer) (X : PyObjIn) (fw : FrameworkOutcome)
    (he : isError (Transformer.estimate t X fw).2 = true) :
    ((Transformer.estimate t X fw).1)._estimated = true → t._estimated = true := by
  by_cases hit : X.isIterable = true
  · obtain ⟨hprod, hest, hout⟩ := estimate_iterable_spec t X fw hit
    intro h2
    rw [hest] at h2
    cases fw with
    | ok m => rw [hout] at he; exact absurd he (by simp [isError])
    | notConverged m => rw [hout] at he; exact absurd he (by simp [isError])
    | raisedErr e => exact h2
  · cases X with
    | stage p => exact absurd rfl hit
    | inMemory p => exact absurd rfl hit
    | ndarray a =>
        obtain ⟨hprod, hest, hout⟩ := estimate_ndarray_spec t a fw
        intro h2
        rw [hest] at h2
        cases fw with
        | ok m => rw [hout] at he; exact absurd he (by simp [isError])
        | notConverged m => rw [hout] at he; exact absurd he (by simp [isError])
        | raisedErr e =>
            have h3 : (if (some (ProducerObj.inMemory t.next_id) : Option ProducerObj)
                  = t.data_producer
                then t._estimated else false) = true := h2
            by_cases hc : (some (ProducerObj.inMemory t.next_id) : Option ProducerObj)
                = t.data_producer
            · rw [if_pos hc] at h3; exact h3
            · rw [if_neg hc] at h3; exact absurd h3 (by simp)
    | pylist xs => exact fun h2 => h2
    | pytuple xs => exact fun h2 => h2
    | other ty => exact fun h2 => h2

/-- Helper: a failing `fit` call never turns `_estimated` on either. -/
theorem fit_error_estimated (t : Transformer) (X : PyObjIn) (fw : FrameworkOutcome)
    (he : isError (Transformer.fit t X fw).2 = true) :
    ((Transformer.fit t X fw).1)._estimated = true → t._estimated = true := by
  cases X with
  | stage p =>
      have e1 : Transformer.fit t (.stage p) fw
          = (match Transformer.estimate
                (Transformer.set_data_producer t (some (.stage p))) (.stage p) fw with
             | (t3, .error e) => (t3, .error e)
             | (t3, .ok _) => (t3, .ok ())) := rfl
      rw [e1] at he ⊢
      rcases hes : Transformer.estimate
          (Transformer.set_data_producer t (some (.stage p))) (.stage p) fw with ⟨t3, r⟩
      rw [hes] at he
      cases r with
      | ok v => exact absurd he (by simp [isError])
      | error e =>
          intro h2
          have h4 : (Transformer.set_data_producer t (some (.stage p)))._estimated = true := by
            apply estimate_error_estimated
                (Transformer.set_data_producer t (some (.stage p))) (.stage p) fw
            · rw [hes]; rfl
            · rw [hes]; exact h2
          exact set_data_producer_estimated_mono t (some (.stage p)) h4
  | ndarray a =>
      have e1 : Transformer.fit t (.ndarray a) fw
          = (match Transformer.estimate
                (Transformer.set_data_producer { t with next_id := t.next_id + 1 }
                  (some (.inMemory t.next_id)))
                (.ndarray a) fw with
             | (t3, .error e) => (t3, .error e)
             | (t3, .ok _) => (t3, .ok ())) := rfl
      rw [e1] at he ⊢
      rcases hes : Transformer.estimate
          (Transformer.set_data_producer { t with next_id := t.next_id + 1 }
            (some (.inMemory t.next_id)))
          (.ndarray a) fw with ⟨t3, r⟩
      rw [hes] at he
      cases r with
      | ok v => exact absurd he (by simp [isError])
      | error e =>
          intro h2
          have h4 : (Transformer.set_data_producer { t with next_id := t.next_id + 1 }
              (some (.inMemory t.next_id)))._estimated = true := by
            apply estimate_error_estimated
                (Transformer.set_data_producer { t with next_id := t.next_id + 1 }
                  (some (.inMemory t.next_id)))
                (.ndarray a) fw
            · rw [hes]; rfl
            · rw [hes]; exact h2
          exact set_data_producer_estimated_mono { t with next_id := t.next_id + 1 }
            (some (.inMemory t.next_id)) h4
  | pylist xs =>
      intro h2
      exact set_data_producer_estimated_mono { t with next_id := t.next_id + 1 }
        (some (.inMemory t.next_id)) h2
  | pytuple xs =>
      intro h2
      exact set_data_producer_estimated_mono { t with next_id := t.next_id + 1 }
        (some (.inMemory t.next_id)) h2
  | inMemory p => exact fun h2 => h2
  | other ty => exact fun h2 => h2

/-- Counterexample to claim C9 as stated: on an already-estimated
transformer, `estimate` called with an invalid input (here a plain string)
raises `ValueError`, yet `_estimated` is still `true` after the failed call
— not `False` regardless of its prior value, as the claim requires. -/
theorem C9_estimate_failure_cex :
    isError (Transformer.estimate sampleT (.other ("a string")) (.ok 0)).2 = true
  ∧ ((Transformer.estimate sampleT (.other ("a string")) (.ok 0)).1)._estimated = true :=
  ⟨rfl, rfl⟩

/-- Claim C9 as amended: a failing `estimate` or `fit` call propagates the
error and never SETS `_estimated`: the flag is `true` after the failed call
only if it was `true` before it; in particular, if it was `false` before
the call it is still `false` afterwards.  (A previously-true flag can
survive a failed call when the producer reference was not replaced.) -/
theorem C9_estimate_failure_amended (t : Transformer) (X : PyObjIn) (fw : FrameworkOutcome) :
    (isError (Transformer.estimate t X fw).2 = true →
        ((Transformer.estimate t X fw).1)._estimated = true → t._estimated = true)
  ∧ (isError (Transformer.fit t X fw).2 = true →
        ((Transformer.fit t X fw).1)._estimated = true → t._estimated = true) :=
  ⟨fun he => estimate_error_estimated t X fw he,
   fun he => fit_error_estimated t X fw he⟩

/-- Witness for the amended C9 at a concrete input: a failed `estimate` on
a list input applied to the already-estimated sample transformer. -/
theorem C9_estimate_failure_amended_wit : sampleT._estimated = true :=
  (C9_estimate_failure_amended sampleT (.pylist []) (.ok 0)).1 rfl rfl

/-- Counterexample to claim C8 as stated: `fit` on a list of arrays does
not run estimation to completion and return `self` — it raises
`ValueError("no array given")`, because `fit` passes the original list to
`estimate`, which accepts only `Iterable` producers and bare ndarrays. -/
theorem C8_fit_list_cex :
    (Transformer.fit freshT (.pylist [arr23]) (.ok 0)).2
      = .error (.valueError ("no array given")) := rfl

/-- Claim C8 as amended: for `X` a pipeline stage or a single ndarray,
`fit` coerces `X` into a data producer, assigns it as `data_producer`, runs
estimation to completion and returns self; but for a list/tuple of arrays,
`fit` assigns the fresh in-memory producer and then propagates the
`ValueError` raised by `estimate` on the original list input, leaving the
transformer unestimated. -/
theorem C8_fit_amended (t : Transformer) (X : PyObjIn) (fw : FrameworkOutcome)
    (hfw : ∀ e : PyErr, fw ≠ .raisedErr e) (hwf : t.wf = true) :
    (∀ p : Nat, X = .stage p →
        (Transformer.fit t X fw).2 = .ok ()
      ∧ ((Transformer.fit t X fw).1).data_producer = some (.stage p)
      ∧ ((Transformer.fit t X fw).1)._estimated = true)
  ∧ (∀ a : NDArray, X = .ndarray a →
        (Transformer.fit t X fw).2 = .ok ()
      ∧ ((Transformer.fit t X fw).1).data_producer
          = some (.inMemory (t.next_id + 1))
      ∧ ((Transformer.fit t X fw).1)._estimated = true)
  ∧ (∀ xs : List NDArray, X = .pylist xs ∨ X = .pytuple xs →
        (Transformer.fit t X fw).2 = .error (.valueError ("no array given"))
      ∧ ((Transformer.fit t X fw).1).data_producer = some (.inMemory t.next_id)
      ∧ ((Transformer.fit t X fw).1)._estimated = false) := by
  have hne := wf_fresh_ne t hwf
  refine ⟨?_, ?_, ?_⟩
  · rintro p rfl
    have e1 : Transformer.fit t (.stage p) fw
        = (match Transformer.estimate
              (Transformer.set_data_producer t (some (.stage p))) (.stage p) fw with
           | (t3, .error e) => (t3, .error e)
           | (t3, .ok _) => (t3, .ok ())) := rfl
    obtain ⟨hprod, hest, hout⟩ := estimate_iterable_spec
        (Transformer.set_data_producer t (some (.stage p))) (.stage p) fw rfl
    rcases hes : Transformer.estimate
        (Transformer.set_data_producer t (some (.stage p))) (.stage p) fw with ⟨t3, r⟩
    rw [hes] at hprod hest hout
    have hrok : ∃ m : Option Nat, r = .ok m := by
      cases fw with
      | ok m => exact ⟨some m, by simpa using hout⟩
      | notConverged m => exact ⟨none, by simpa using hout⟩
      | raisedErr e => exact absurd rfl (hfw e)
    obtain ⟨m, rfl⟩ := hrok
    rw [e1, hes]
    refine ⟨rfl, ?_, ?_⟩
    · show t3.data_producer = some (.stage p)
      have hp2 : t3.data_producer
          = (Transformer.set_data_producer t (some (.stage p))).data_producer := hprod
      rw [hp2]
      rfl
    · show t3._estimated = true
      cases fw with
      | ok m2 => exact hest
      | notConverged m2 => exact hest
      | raisedErr e => exact absurd rfl (hfw e)
  · rintro a rfl
    have e1 : Transformer.fit t (.ndarray a) fw
        = (match Transformer.estimate
              (Transformer.set_data_producer { t with next_id := t.next_id + 1 }
                (some (.inMemory t.next_id)))
              (.ndarray a) fw with
           | (t3, .error e) => (t3, .error e)
           | (t3, .ok _) => (t3, .ok ())) := rfl
    obtain ⟨hprod, hest, hout⟩ := estimate_ndarray_spec
        (Transformer.set_data_producer { t with next_id := t.next_id + 1 }
          (some (.inMemory t.next_id)))
        a fw
    rcases hes : Transformer.estimate
        (Transformer.set_data_producer { t with next_id := t.next_id + 1 }
          (some (.inMemory t.next_id)))
        (.ndarray a) fw with ⟨t3, r⟩
    rw [hes] at hprod hest hout
    have hrok : ∃ m : Option Nat, r = .ok m := by
      cases fw with
      | ok m => exact ⟨some m, by simpa using hout⟩
      | notConverged m => exact ⟨none, by simpa using hout⟩
      | raisedErr e => exact absurd rfl (hfw e)
    obtain ⟨m, rfl⟩ := hrok
    rw [e1, hes]
    refine ⟨rfl, ?_, ?_⟩
    · show t3.data_producer = some (.inMemory (t.next_id + 1))
      have hp2 : t3.data_producer
          = some (.inMemory ((Transformer.set_data_producer
              { t with next_id := t.next_id + 1 }
              (some (.inMemory t.next_id))).next_id)) := hprod
      rw [hp2,
        (set_data_producer_fields { t with next_id := t.next_id + 1 }
          (some (.inMemory t.next_id))).2.2.1]
    · show t3._estimated = true
      cases fw with
      | ok m2 => exact hest
      | notConverged m2 => exact hest
      | raisedErr e => exact absurd rfl (hfw e)
  · rintro xs (rfl | rfl) <;>
    · refine ⟨rfl, rfl, ?_⟩
      show (Transformer.set_data_producer { t with next_id := t.next_id + 1 }
          (some (.inMemory t.next_id)))._estimated = false
      rw [(set_data_producer_fields { t with next_id := t.next_id + 1 }
          (some (.inMemory t.next_id))).2.2.2]
      exact if_neg hne

/-- Witness for the amended C8 at concrete inputs: fitting the sample
transformer on a pipeline stage succeeds, fitting it on a list of arrays
raises and leaves it unestimated. -/
theorem C8_fit_amended_wit :
    (Transformer.fit sampleT (.stage 5) (.ok 2)).2 = .ok ()
  ∧ ((Transformer.fit sampleT (.pylist [arr23]) (.ok 2)).1)._estimated = false :=
  ⟨((C8_fit_amended sampleT (.stage 5) (.ok 2) (fun _e h => nomatch h) rfl).1 5 rfl).1,
   ((C8_fit_amended sampleT (.pylist [arr23]) (.ok 2) (fun _e h => nomatch h) rfl).2.2
      [arr23] (Or.inl rfl)).2.2⟩

/-- Claim C10: `estimate` accepts only `Iterable` producers or a bare
ndarray — a Python list or tuple of arrays (or anything else) raises
`ValueError("no array given")` with the state untouched and regardless of
the framework, i.e. before any fitting occurs, while `Iterable` inputs go
through to the framework; and on a bare ndarray the stored producer is
replaced by a fresh in-memory wrapper (for every framework outcome, hence
before fitting), fresh meaning distinct from the previous producer. -/
theorem C10_estimate_input_validation (t : Transformer) (fw : FrameworkOutcome) :
    (∀ xs : List NDArray,
        Transformer.estimate t (.pylist xs) fw
          = (t, .error (.valueError ("no array given")))
      ∧ Transformer.estimate t (.pytuple xs) fw
          = (t, .error (.valueError ("no array given"))))
  ∧ (∀ ty : String,
        Transformer.estimate t (.other ty) fw
          = (t, .error (.valueError ("no array given"))))
  ∧ (∀ m p : Nat,
        (Transformer.estimate t (.stage p) (.ok m)).2 = .ok (some m)
      ∧ (Transformer.estimate t (.inMemory p) (.ok m)).2 = .ok (some m))
  ∧ (∀ a : NDArray,
        ((Transformer.estimate t (.ndarray a) fw).1).data_producer
          = some (.inMemory t.next_id)
      ∧ (t.wf = true →
          ((Transformer.estimate t (.ndarray a) fw).1).data_producer
            ≠ t.data_producer)) := by
  refine ⟨fun xs => ⟨rfl, rfl⟩, fun ty => rfl, fun m p => ⟨?_, ?_⟩, fun a => ⟨?_, ?_⟩⟩
  · exact (estimate_iterable_spec t (.stage p) (.ok m) rfl).2.2
  · exact (estimate_iterable_spec t (.inMemory p) (.ok m) rfl).2.2
  · exact (estimate_ndarray_spec t a fw).1
  · intro hwf
    rw [(estimate_ndarray_spec t a fw).1]
    exact wf_fresh_ne t hwf

/-- Witness for C10 at a concrete input: estimating the sample transformer
on a bare 2 × 3 array replaces its producer. -/
theorem C10_estimate_input_validation_wit :
    ((Transformer.estimate sampleT (.ndarray arr23) (.ok 0)).1).data_producer
      ≠ sampleT.data_producer :=
  ((C10_estimate_input_validation sampleT (.ok 0)).2.2.2 arr23).2 rfl

end PyEMMA
